import Mathlib

/-!
Verification of the ControlDeck PaddleVision subsystem: a shallow embedding
of the landmark-to-control derivation pipeline (derivers, processors,
pipeline, adapter) with rational numbers standing in for JS numbers.
-/

namespace ControlDeck

/-! ## Data model -/

/-- A 3D landmark point (x, y, z in normalized image coordinates). -/
structure Landmark where
  x : ℚ
  y : ℚ
  z : ℚ
deriving DecidableEq

/-- A landmark frame as delivered by a source: an optional landmark list
(`none` models a frame without a `landmarks` field) and a timestamp. -/
structure Frame where
  landmarks : Option (List Landmark)
  timestamp : ℚ
deriving DecidableEq

/-- A value stored in a processing-context sub-map: a JS number, or a plain
object of numeric fields (e.g. hand-center `\x7bx, y\x7d`). -/
inductive Value where
  | num (q : ℚ)
  | nan
  | vec (fields : List (String × ℚ))
deriving DecidableEq

/-- Math.abs on rationals, written so that the kernel can evaluate it. -/
def jsAbs (q : ℚ) : ℚ := if q < 0 then -q else q

/-- Math.max on rationals, written so that the kernel can evaluate it. -/
def jsMax (a b : ℚ) : ℚ := if a ≤ b then b else a

/-- Math.min on rationals, written so that the kernel can evaluate it. -/
def jsMin (a b : ℚ) : ℚ := if b ≤ a then b else a

/-- A JS number as it can appear in the calibrate rotation computation:
a finite rational, a signed infinity, or NaN. Division by zero is the only
producer of non-finite values in the embedded code. -/
inductive JNum where
  | fin (q : ℚ)
  | posInf
  | negInf
  | nan
deriving DecidableEq

/-- JS division a / b of finite numbers: finite when b is nonzero,
otherwise +Infinity, -Infinity or NaN according to the sign of a. -/
def jsDiv (a b : ℚ) : JNum :=
  if b = 0 then
    if 0 < a then .posInf else if a < 0 then .negInf else .nan
  else .fin (a / b)

/-- JS comparison `v < 0`: false for NaN and +Infinity. -/
def JNum.lt0 : JNum → Bool
  | .fin q => if q < 0 then true else false
  | .posInf => false
  | .negInf => true
  | .nan => false

/-- JS multiplication of v by a finite s: an infinity times 0 is NaN,
otherwise the sign rules apply; NaN propagates. -/
def JNum.mulFin : JNum → ℚ → JNum
  | .fin q, s => .fin (q * s)
  | .posInf, s => if 0 < s then .posInf else if s < 0 then .negInf else .nan
  | .negInf, s => if 0 < s then .negInf else if s < 0 then .posInf else .nan
  | .nan, _ => .nan

/-- Math.min(b, v) with finite b: +Infinity caps to b, -Infinity stays,
NaN propagates. -/
def JNum.minFin : JNum → ℚ → JNum
  | .fin q, b => .fin (jsMin b q)
  | .posInf, b => .fin b
  | .negInf, _ => .negInf
  | .nan, _ => .nan

/-- Math.max(b, v) with finite b: -Infinity floors to b, +Infinity stays,
NaN propagates. -/
def JNum.maxFin : JNum → ℚ → JNum
  | .fin q, b => .fin (jsMax b q)
  | .posInf, _ => .posInf
  | .negInf, b => .fin b
  | .nan, _ => .nan

/-- JS unary minus on a JS number. -/
def JNum.neg : JNum → JNum
  | .fin q => .fin (-q)
  | .posInf => .negInf
  | .negInf => .posInf
  | .nan => .nan

/-- Association-list lookup, modelling JS `key in obj` and `obj[key]`. -/
def lookupA {α : Type} : List (String × α) → String → Option α
  | [], _ => none
  | (k, v) :: rest, key => if k = key then some v else lookupA rest key

/-- Insert or replace a key, modelling JS `obj[key] = v`. -/
def insertA {α : Type} : List (String × α) → String → α → List (String × α)
  | [], key, v => [(key, v)]
  | (k, w) :: rest, key, v =>
      if k = key then (k, v) :: rest else (k, w) :: insertA rest key v

/-- JS truthiness of a context value (e.g. `if (derived['hand-center'])`):
a number is falsy iff it is 0; an object is always truthy. -/
def Value.truthy : Value → Bool
  | .num q => if q = 0 then false else true
  | .nan => false
  | .vec _ => true

/-- JS property read `val[k]` on a context value. A missing field or a
field read on a number yields 0 in this rational model (JS produces
undefined, then NaN downstream; no claim depends on that corner). -/
def Value.field : Value → String → ℚ
  | .num _, _ => 0
  | .nan, _ => 0
  | .vec fs, k => (lookupA fs k).getD 0

/-- Storage of a JS number into a context value. In calibrateRotation the
clamp turns +Infinity into 1 and -Infinity into -1 before storage, so the
infinity cases here are unreachable from it (clampRev_shape below proves
the clamped result is finite or NaN). -/
def JNum.toValue : JNum → Value
  | .fin q => .num q
  | .nan => .nan
  | .posInf => .nan
  | .negInf => .nan

/-- A captured calibration reference point. -/
structure RefPoint where
  rawRotation : ℚ
  variance : ℚ
deriving DecidableEq

/-- Calibration reference points (each optional, as in the JS object). -/
structure Reference where
  center : Option RefPoint
  supinate : Option RefPoint
  pronate : Option RefPoint
deriving DecidableEq

/-- Asymmetric sensitivity tuning. -/
structure Sensitivity where
  left : ℚ
  right : ℚ
deriving DecidableEq

/-- Smoothing tuning parameters. -/
structure Smoothing where
  factor : ℚ
  deadzone : ℚ
deriving DecidableEq

/-- Tuning sub-object of a calibration profile. -/
structure Tuning where
  sensitivity : Option Sensitivity
  reverse : Bool
  smoothing : Option Smoothing
deriving DecidableEq

/-- A calibration profile held by a running adapter. -/
structure Calibration where
  reference : Reference
  tuning : Tuning
deriving DecidableEq

/-- The processing context threaded through the pipeline (pipeline.js
lines 65-74); the unused `meta` sub-map is omitted. The `outputs` values
are `Option ℚ` where `none` marks a JS NaN/undefined produced by a
shape-mismatched output config. -/
structure Ctx where
  raw : Frame
  derived : List (String × Value)
  calibrated : List (String × Value)
  smoothed : List (String × Value)
  gestures : List (String × Value)
  outputs : List (String × Option ℚ)
  calibration : Calibration
deriving DecidableEq

/-! ## CalibrateProcessor -/

/-- Read of `point?.rawRotation || dflt` in calibrate.js: the default
applies when the point is absent or when its rawRotation is 0, because JS
`||` treats the number 0 as falsy. -/
def rawRotationOr (p : Option RefPoint) (dflt : ℚ) : ℚ :=
  match p with
  | none => dflt
  | some r => if r.rawRotation = 0 then dflt else r.rawRotation

/-- Rotation-normalization block of CalibrateProcessor.process
(calibrate.js lines 24-47): reference-relative normalization, asymmetric
sensitivity, Math.min/Math.max clamp, optional reversal. The division is
the JS one: when thetaRange is 0 it yields an infinity (clamped to ±1
further down) or NaN when raw equals the effective center. -/
def calibrateRotation (raw : ℚ) (reference : Reference) (tuning : Tuning) : JNum :=
  let thetaRange := rawRotationOr reference.pronate (13/25)
      - rawRotationOr reference.supinate (-(13/25))
  let normalized := jsDiv (raw - rawRotationOr reference.center 0) (thetaRange / 2)
  let sens := tuning.sensitivity.getD (Sensitivity.mk 1 1)
  let normalized := if normalized.lt0 then normalized.mulFin sens.left
      else normalized.mulFin sens.right
  let normalized := (normalized.minFin 1).maxFin (-1)
  if tuning.reverse then normalized.neg else normalized

/-- CalibrateProcessor.process (calibrate.js lines 15-61): copy `derived`
into `calibrated`, then add hand-rotation-calibrated when hand-rotation is
present (as a number, which the extract stage guarantees) and a center
reference exists, and hand-center-calibrated when hand-center is truthy. -/
def calibrateProcess (context : Ctx) : Ctx :=
  let derived := context.derived
  let reference := context.calibration.reference
  let tuning := context.calibration.tuning
  let calibrated := derived
  let calibrated :=
    match lookupA derived "hand-rotation", reference.center with
    | some (.num raw), some _ =>
        insertA calibrated "hand-rotation-calibrated"
          (calibrateRotation raw reference tuning).toValue
    | _, _ => calibrated
  let calibrated :=
    match lookupA derived "hand-center" with
    | some v =>
        if v.truthy then
          insertA calibrated "hand-center-calibrated"
            (.vec [("x", (v.field "x" - 1/2) * 2), ("y", (v.field "y" - 1/2) * 2)])
        else calibrated
    | none => calibrated
  { context with calibrated := calibrated }

/-- Spec-side formula for the calibrated rotation, modelled from the
claim's words for comparison with `calibrateRotation`: thetaRange uses
pronate/supinate rawRotation "defaulting to 0.52 and -0.52 when unset"
(plain defaulting, with no JS falsiness on a stored 0). -/
def calibrateRotationClaimed (raw : ℚ) (reference : Reference) (tuning : Tuning) : ℚ :=
  let thetaRange := ((reference.pronate.map RefPoint.rawRotation).getD (13/25))
      - ((reference.supinate.map RefPoint.rawRotation).getD (-(13/25)))
  let center := (reference.center.map RefPoint.rawRotation).getD 0
  let normalized := (raw - center) / (thetaRange / 2)
  let sens := tuning.sensitivity.getD (Sensitivity.mk 1 1)
  let normalized := if normalized < 0 then normalized * sens.left
      else normalized * sens.right
  let normalized := jsMax (-1) (jsMin 1 normalized)
  if tuning.reverse then -normalized else normalized

/-! ## SmoothProcessor -/

/-- Private state of the SmoothProcessor (part_009 line 17). -/
structure SmoothState where
  x : ℚ
  y : ℚ
  theta : ℚ
  spread : ℚ
deriving DecidableEq

/-- Per-channel smoothing update (part_009 lines 25-31): freeze inside the
deadzone, otherwise move toward the target by (1 - factor). -/
def smooth (factor deadzone current target : ℚ) : ℚ :=
  let delta := target - current
  if jsAbs delta < deadzone then current
  else current + delta * (1 - factor)

/-- Iterated per-channel smoothing toward a constant target. -/
def smoothIter (factor deadzone target s0 : ℚ) : ℕ → ℚ
  | 0 => s0
  | n + 1 => smooth factor deadzone (smoothIter factor deadzone target s0 n) target

/-! ## Processor pipeline -/

/-- Fresh context seeded per frame by ProcessorPipeline.process
(pipeline.js lines 65-74); the calibration argument is defaulted from the
schema when not supplied. -/
def initContext (input : Frame) (calibration : Option Calibration)
    (schemaCalibration : Calibration) : Ctx :=
  Ctx.mk input [] [] [] [] [] (calibration.getD schemaCalibration)

/-- Stage loop of ProcessorPipeline.process (pipeline.js lines 76-84): a
stage either returns a new context or throws (`none`); a throw is caught
and the context of the last successful stage is kept for the next stage. -/
def pipelineRun {α : Type} (processors : List (α → Option α)) (context : α) : α :=
  match processors with
  | [] => context
  | p :: rest =>
      match p context with
      | some c => pipelineRun rest c
      | none => pipelineRun rest context

/-! ## Output resolution and emission -/

/-- Linear range remap configuration of an output entry. -/
structure RangeCfg where
  inputLo : ℚ
  inputHi : ℚ
  outputLo : ℚ
  outputHi : ℚ
deriving DecidableEq

/-- One schema output entry. -/
structure OutputCfg where
  source : String
  component : Option String
  range : Option RangeCfg
  invert : Bool
  topic : Option String
deriving DecidableEq

/-- Component selection `component ? val[component] : val` (part_007 lines
180-194). An empty component string is falsy in JS, so the value is
returned as-is. Reading a field off a number, a missing field, or an
object where a number is expected gives `none` (JS undefined / NaN in the
later arithmetic). -/
def selectComponent (v : Value) (component : Option String) : Option ℚ :=
  match component with
  | some c =>
      if c = "" then
        match v with
        | .num q => some q
        | .nan => none
        | .vec _ => none
      else
        match v with
        | .num _ => none
        | .nan => none
        | .vec fs => lookupA fs c
  | none =>
      match v with
      | .num q => some q
      | .nan => none
      | .vec _ => none

/-- PaddleVisionAdapter._resolveOutput (part_007 lines 175-198): the first
match among smoothed, calibrated, derived wins; an unresolved source
yields 0. -/
def resolveOutput (context : Ctx) (config : OutputCfg) : Option ℚ :=
  match lookupA context.smoothed config.source with
  | some v => selectComponent v config.component
  | none =>
    match lookupA context.calibrated config.source with
    | some v => selectComponent v config.component
    | none =>
      match lookupA context.derived config.source with
      | some v => selectComponent v config.component
      | none => some 0

/-- Range remap, inversion and clamp applied to a resolved value
(part_007 lines 131-148). -/
def applyOutput (config : OutputCfg) (value : ℚ) : ℚ :=
  let value :=
    match config.range with
    | some r => r.outputLo
        + (value - r.inputLo) / (r.inputHi - r.inputLo) * (r.outputHi - r.outputLo)
    | none => value
  let value := if config.invert then 1 - value else value
  jsMax 0 (jsMin 1 value)

/-- Topic defaulting `config.topic || 'hand'` (part_007 line 155); an empty
string is falsy in JS. -/
def topicOr (t : Option String) : String :=
  match t with
  | none => "hand"
  | some s => if s = "" then "hand" else s

/-- One sink emission (control name, value, topic). A `none` value marks
a JS NaN/undefined produced by a shape-mismatched config. -/
structure Emission where
  control : String
  value : Option ℚ
  topic : String
deriving DecidableEq

/-- PaddleVisionAdapter._emitOutputs over schema.outputs (part_007 lines
124-160): resolve each configured output, transform it, store it into
context.outputs and append one emission per output; each emission is then
sent to every sink (see `fanOut`). -/
def emitOutputs (outputs : List (String × OutputCfg)) (context : Ctx) :
    Ctx × List Emission :=
  match outputs with
  | [] => (context, [])
  | (name, config) :: rest =>
      let value := (resolveOutput context config).map (applyOutput config)
      let context := { context with outputs := insertA context.outputs name value }
      let result := emitOutputs rest context
      (result.1, Emission.mk name value (topicOr config.topic) :: result.2)

/-- Fan-out of an emission list to a list of sink identifiers: every sink
receives every emission (part_007 lines 154-159). -/
def fanOut (sinks : List String) (emissions : List Emission) :
    List (String × Emission) :=
  match emissions with
  | [] => []
  | e :: rest => sinks.map (fun s => (s, e)) ++ fanOut sinks rest

/-! ## Adapter frame processing and statistics -/

/-- Adapter statistics (part_007 lines 43-47). -/
structure Stats where
  framesProcessed : ℕ
  lastTimestamp : ℚ
  detectedFrames : ℕ
deriving DecidableEq

/-- Adapter state relevant to frame processing. The pipeline's mutable
processor state has an abstract type σ and its per-frame action (pipeline
run plus output emission) is a `step` parameter; it is a total function
because every stage throw is caught inside the pipeline. -/
structure AdapterState (σ : Type) where
  stats : Stats
  pipeState : σ
  sent : List Emission
  running : Bool

/-- PaddleVisionAdapter._processFrame (part_007 lines 104-119): count the
frame and record its timestamp; a frame with absent landmarks or fewer
than 21 of them is skipped before the detection count, the pipeline and
any emission. -/
def processFrame {σ : Type} (step : σ → Frame → σ × List Emission)
    (s : AdapterState σ) (data : Frame) : AdapterState σ :=
  let stats := { s.stats with
      framesProcessed := s.stats.framesProcessed + 1
      lastTimestamp := data.timestamp }
  match data.landmarks with
  | none => { s with stats := stats }
  | some lms =>
      if lms.length < 21 then { s with stats := stats }
      else
        let stats := { stats with detectedFrames := stats.detectedFrames + 1 }
        let r := step s.pipeState data
        { s with stats := stats, pipeState := r.1, sent := s.sent ++ r.2 }

/-- detectionRate of PaddleVisionAdapter.getStats (part_007 lines 340-350). -/
def detectionRate (stats : Stats) : ℚ :=
  if 0 < stats.framesProcessed then
    (stats.detectedFrames : ℚ) / (stats.framesProcessed : ℚ)
  else 0

/-- Adapter operations that touch statistics or frame flow: start and stop
flip the running flag (sink/source management is not modelled further);
a source frame reaches _processFrame only while subscribed, i.e. running. -/
inductive AdapterOp where
  | start
  | stop
  | frame (data : Frame)

/-- Apply one adapter operation. -/
def applyOp {σ : Type} (step : σ → Frame → σ × List Emission)
    (s : AdapterState σ) : AdapterOp → AdapterState σ
  | .start => { s with running := true }
  | .stop => { s with running := false }
  | .frame data => if s.running then processFrame step s data else s

/-- Apply a sequence of adapter operations. -/
def runOps {σ : Type} (step : σ → Frame → σ × List Emission)
    (s : AdapterState σ) : List AdapterOp → AdapterState σ
  | [] => s
  | op :: rest => runOps step (applyOp step s op) rest

/-- Initial adapter state (part_007 constructor, lines 42-50). -/
def initAdapter {σ : Type} (p0 : σ) : AdapterState σ :=
  AdapterState.mk (Stats.mk 0 0 0) p0 [] false

/-! ## Calibration API -/

/-- A reference point name accepted by captureReferencePoint. -/
inductive RefName where
  | center
  | supinate
  | pronate
deriving DecidableEq

/-- Write one reference point (`this.calibration.reference[point] = ...`). -/
def Reference.set (ref : Reference) : RefName → RefPoint → Reference
  | .center, p => { ref with center := some p }
  | .supinate, p => { ref with supinate := some p }
  | .pronate, p => { ref with pronate := some p }

/-- PaddleVisionAdapter.captureReferencePoint (part_007 lines 224-240).
The guard is JS `!smoothProc || !smoothProc._state.theta`, so a missing
Smooth processor — or a current theta of exactly 0, which is falsy —
returns null without writing anything; otherwise
reference[point] := \x7brawRotation: theta, variance: 0.02\x7d is stored
and returned. -/
def captureReferencePoint (smoothState : Option SmoothState) (point : RefName)
    (calibration : Calibration) : Option RefPoint × Calibration :=
  match smoothState with
  | none => (none, calibration)
  | some st =>
      if st.theta = 0 then (none, calibration)
      else
        let rp := RefPoint.mk st.theta (1/50)
        (some rp, { calibration with reference := calibration.reference.set point rp })

/-- Result of validateCalibration. -/
structure Validation where
  valid : Bool
  issues : List String
  quality : ℚ
deriving DecidableEq

/-- PaddleVisionAdapter.validateCalibration (part_007 lines 246-279).
Reads use `point?.rawRotation || 0`, which coincides with plain 0
defaulting since the falsy stored value is 0 itself. -/
def validateCalibration (calibration : Calibration) : Validation :=
  let reference := calibration.reference
  let issues : List String := []
  let quality : ℚ := 1
  let range := rawRotationOr reference.pronate 0 - rawRotationOr reference.supinate 0
  let r1 :=
    if range < 3/10 then (issues ++ ["Rotation range too small"], quality * (1/2))
    else (issues, quality)
  let asymmetry := jsAbs (jsAbs (rawRotationOr reference.supinate 0)
      - jsAbs (rawRotationOr reference.pronate 0))
  let r2 :=
    if 1/5 < asymmetry then (r1.1 ++ ["Asymmetric range detected"], r1.2 * (4/5))
    else r1
  let r3 :=
    if 1/10 < jsAbs (rawRotationOr reference.center 0) then
      (r2.1 ++ ["Center point not neutral"], r2.2 * (9/10))
    else r2
  Validation.mk r3.1.isEmpty r3.1 r3.2

/-- A parsed calibration profile: the JSON.parse outcome of an import
string, with each top-level field optionally present. -/
structure Profile where
  reference : Option Reference
  tuning : Option Tuning
deriving DecidableEq

/-- PaddleVisionAdapter.setCalibration (part_007 lines 216-218):
Object.assign(\x7b\x7d, schema.calibration, profile) — a top-level field
present in the profile overrides the schema default, a missing one is
taken from the schema. -/
def setCalibration (schemaCalibration : Calibration) (profile : Profile) : Calibration :=
  Calibration.mk (profile.reference.getD schemaCalibration.reference)
    (profile.tuning.getD schemaCalibration.tuning)

/-- PaddleVisionAdapter.importCalibration (part_007 lines 294-303). The
`parsed` argument is the JSON.parse outcome of the input string (`none`
models the thrown parse error, which the method catches): on failure
return false and keep the current calibration untouched, on success apply
setCalibration and return true. -/
def importCalibration (current : Calibration) (schemaCalibration : Calibration)
    (parsed : Option Profile) : Bool × Calibration :=
  match parsed with
  | none => (false, current)
  | some profile => (true, setCalibration schemaCalibration profile)

/-! ## Derivation library (the parts the claims need) -/

/-- Normalize configuration of the distance / triangleArea derivers. -/
structure NormalizeCfg where
  min : ℚ
  max : ℚ
  outputMax : Option ℚ
deriving DecidableEq

/-- Read of `config.normalize.outputMax || 1.0`: the default applies when
the field is absent or 0 (JS falsiness). -/
def outputMaxOr (o : Option ℚ) : ℚ :=
  match o with
  | none => 1
  | some q => if q = 0 then 1 else q

/-- Shoelace (cross-product) area of the triangle a b c
(index.js lines 268-273); only x and y are used. -/
def shoelaceArea (a b c : Landmark) : ℚ :=
  let ax := b.x - a.x
  let ay := b.y - a.y
  let bx := c.x - a.x
  let byq := c.y - a.y
  jsAbs (ax * byq - ay * bx) / 2

/-- DERIVATION_TYPES.triangleArea (index.js lines 264-282): shoelace area;
with a normalize config the rescale is clamped above by outputMax but —
unlike distance — has no Math.max(0, ...) floor. -/
def triangleArea (a b c : Landmark) (normalize : Option NormalizeCfg) : ℚ :=
  let raw := shoelaceArea a b c
  match normalize with
  | some n => jsMin (outputMaxOr n.outputMax)
      ((raw - n.min) / (n.max - n.min) * outputMaxOr n.outputMax)
  | none => raw

/-- Normalize branch of DERIVATION_TYPES.distance (index.js lines
251-256), applied to the raw Euclidean distance (the square root itself is
not needed by any claim): rescale, floor-clamp at 0, ceiling at outputMax. -/
def distanceNormalize (raw : ℚ) (n : NormalizeCfg) : ℚ :=
  jsMin (outputMaxOr n.outputMax)
    (jsMax 0 ((raw - n.min) / (n.max - n.min) * outputMaxOr n.outputMax))

/-- Spec-side formula for the normalized triangle area, modelled from the
claim's words: "the triangleArea derivation applies the same
rescale-and-clamp as the distance derivation", i.e.
min(outputMax, max(0, (raw - min)/(max - min) * outputMax)). -/
def triangleAreaClaimed (a b c : Landmark) (n : NormalizeCfg) : ℚ :=
  distanceNormalize (shoelaceArea a b c) n

/-! ## Helper lemmas -/

theorem jsAbs_eq_abs (q : ℚ) : jsAbs q = |q| := by
  unfold jsAbs
  split_ifs with h
  · exact (abs_of_neg h).symm
  · exact (abs_of_nonneg (le_of_not_lt h)).symm

theorem jsMax_eq_max (a b : ℚ) : jsMax a b = max a b := by
  unfold jsMax
  split_ifs with h
  · exact (max_eq_right h).symm
  · exact (max_eq_left (le_of_not_le h)).symm

theorem jsMin_eq_min (a b : ℚ) : jsMin a b = min a b := by
  unfold jsMin
  split_ifs with h
  · exact (min_eq_right h).symm
  · exact (min_eq_left (le_of_not_le h)).symm

theorem lookupA_insertA_self {α : Type} (l : List (String × α)) (k : String) (v : α) :
    lookupA (insertA l k v) k = some v := by
  induction l with
  | nil => simp [insertA, lookupA]
  | cons hd tl ih =>
      obtain ⟨k0, v0⟩ := hd
      by_cases h : k0 = k
      · simp [insertA, h, lookupA]
      · simp [insertA, h, lookupA, ih]

theorem lookupA_insertA_ne {α : Type} (l : List (String × α)) (k k' : String) (v : α)
    (h : k' ≠ k) : lookupA (insertA l k v) k' = lookupA l k' := by
  induction l with
  | nil => simp [insertA, lookupA, Ne.symm h]
  | cons hd tl ih =>
      obtain ⟨k0, v0⟩ := hd
      by_cases h0 : k0 = k
      · subst h0
        simp [insertA, lookupA, Ne.symm h]
      · simp only [insertA, if_neg h0, lookupA]
        by_cases h1 : k0 = k'
        · simp [h1]
        · simp [h1, ih]

/-! ## Claim theorems -/

/-- C7: validateCalibration starts from quality 1.0 and, independently for
each check, multiplies quality by 0.5 (range below 0.3), 0.8 (magnitude
asymmetry above 0.2) and 0.9 (center magnitude above 0.1), recording one
issue per failed check; the result is valid iff the issue list is empty.
Reference supinate -0.6 / pronate 0.6 / center 0 is valid with quality 1,
and supinate -0.1 / pronate 0.1 / center 0 yields exactly the
range-too-small issue with quality 0.5. -/
theorem C7_validateCalibration :
    (∀ cal : Calibration,
      ((validateCalibration cal).valid = true ↔ (validateCalibration cal).issues = []) ∧
      (validateCalibration cal).quality =
        (if rawRotationOr cal.reference.pronate 0 - rawRotationOr cal.reference.supinate 0
            < 3/10 then (1:ℚ)/2 else 1)
        * (if 1/5 < jsAbs (jsAbs (rawRotationOr cal.reference.supinate 0)
            - jsAbs (rawRotationOr cal.reference.pronate 0)) then 4/5 else 1)
        * (if 1/10 < jsAbs (rawRotationOr cal.reference.center 0) then 9/10 else 1) ∧
      (("Rotation range too small" ∈ (validateCalibration cal).issues) ↔
        rawRotationOr cal.reference.pronate 0 - rawRotationOr cal.reference.supinate 0 < 3/10) ∧
      (("Asymmetric range detected" ∈ (validateCalibration cal).issues) ↔
        1/5 < jsAbs (jsAbs (rawRotationOr cal.reference.supinate 0)
          - jsAbs (rawRotationOr cal.reference.pronate 0))) ∧
      (("Center point not neutral" ∈ (validateCalibration cal).issues) ↔
        1/10 < jsAbs (rawRotationOr cal.reference.center 0))) ∧
    validateCalibration
      (Calibration.mk
        (Reference.mk (some (RefPoint.mk 0 (1/100)))
          (some (RefPoint.mk (-(3/5)) (1/50))) (some (RefPoint.mk (3/5) (1/50))))
        (Tuning.mk none false none))
      = Validation.mk true [] 1 ∧
    validateCalibration
      (Calibration.mk
        (Reference.mk (some (RefPoint.mk 0 (1/100)))
          (some (RefPoint.mk (-(1/10)) (1/50))) (some (RefPoint.mk (1/10) (1/50))))
        (Tuning.mk none false none))
      = Validation.mk false ["Rotation range too small"] (1/2) := by
  refine ⟨fun cal => ?_,
    by norm_num [validateCalibration, rawRotationOr, jsAbs],
    by norm_num [validateCalibration, rawRotationOr, jsAbs]⟩
  by_cases h1 : rawRotationOr cal.reference.pronate 0
      - rawRotationOr cal.reference.supinate 0 < 3/10 <;>
  by_cases h2 : (1:ℚ)/5 < jsAbs (jsAbs (rawRotationOr cal.reference.supinate 0)
      - jsAbs (rawRotationOr cal.reference.pronate 0)) <;>
  by_cases h3 : (1:ℚ)/10 < jsAbs (rawRotationOr cal.reference.center 0) <;>
  simp [validateCalibration, h1, h2, h3, List.isEmpty_iff, -one_div]

/-- C9: importCalibration returns false and leaves the calibration exactly
unchanged when the input string fails to parse as JSON, and otherwise
returns true and replaces the calibration with the schema default
overridden by the parsed profile's present top-level fields. -/
theorem C9_importCalibration (current schemaCal : Calibration) (parsed : Option Profile) :
    (parsed = none → importCalibration current schemaCal parsed = (false, current)) ∧
    (∀ p : Profile, parsed = some p →
      importCalibration current schemaCal parsed =
        (true, Calibration.mk (p.reference.getD schemaCal.reference)
          (p.tuning.getD schemaCal.tuning))) := by
  constructor
  · intro h
    subst h
    rfl
  · intro p h
    subst h
    rfl

/-- Witness for C9 at concrete inputs: a failed parse keeps a calibration
that differs from the schema default, and a parse with only a tuning field
takes the reference from the schema. -/
theorem C9_importCalibration_witness :
    importCalibration
        (Calibration.mk (Reference.mk (some (RefPoint.mk 1 1)) none none)
          (Tuning.mk none true none))
        (Calibration.mk (Reference.mk none none none) (Tuning.mk none false none))
        none
      = (false, Calibration.mk (Reference.mk (some (RefPoint.mk 1 1)) none none)
          (Tuning.mk none true none)) ∧
    importCalibration
        (Calibration.mk (Reference.mk (some (RefPoint.mk 1 1)) none none)
          (Tuning.mk none true none))
        (Calibration.mk (Reference.mk none none none) (Tuning.mk none false none))
        (some (Profile.mk none (some (Tuning.mk none true none))))
      = (true, Calibration.mk (Reference.mk none none none) (Tuning.mk none true none)) :=
  ⟨(C9_importCalibration _ _ _).1 rfl, (C9_importCalibration _ _ _).2 _ rfl⟩

/-- C8: a frame whose landmarks are absent or fewer than 21 increments
framesProcessed and records the timestamp, but leaves detectedFrames, the
pipeline state and the emission log exactly unchanged (the pipeline is not
invoked and nothing is emitted). -/
theorem C8_skip_insufficient_landmarks {σ : Type}
    (step : σ → Frame → σ × List Emission) (s : AdapterState σ) (data : Frame)
    (h : data.landmarks = none ∨ ∃ lms, data.landmarks = some lms ∧ lms.length < 21) :
    processFrame step s data =
      { s with stats := { s.stats with
          framesProcessed := s.stats.framesProcessed + 1
          lastTimestamp := data.timestamp } } := by
  rcases h with h | ⟨lms, h, hlen⟩
  · simp [processFrame, h]
  · simp [processFrame, h, hlen]

/-- Witness for C8: a frame with an empty landmark list only bumps the
frame counter and timestamp. -/
theorem C8_skip_insufficient_landmarks_witness :
    processFrame (fun (u : Unit) _ => (u, [])) (initAdapter ()) (Frame.mk (some []) 5)
      = { initAdapter () with stats := { (initAdapter ()).stats with
          framesProcessed := (initAdapter ()).stats.framesProcessed + 1
          lastTimestamp := (5:ℚ) } } :=
  C8_skip_insufficient_landmarks _ _ _ (Or.inr ⟨[], rfl, by decide⟩)

/-- C6: the claim says captureReferencePoint writes the Smooth processor's
current theta with variance 0.02 for every theta, including 0; but the
code guards with JS `!smoothProc._state.theta`, so at theta = 0 it returns
null and writes nothing, while at any nonzero theta it does write the
claimed record. This theorem evaluates the code at the failing input
theta = 0 (and contrasts it with theta = 1/10). -/
theorem C6_capture_theta_zero :
    captureReferencePoint (some (SmoothState.mk 0 0 0 0)) RefName.center
        (Calibration.mk (Reference.mk none none none) (Tuning.mk none false none))
      = (none, Calibration.mk (Reference.mk none none none) (Tuning.mk none false none)) ∧
    captureReferencePoint (some (SmoothState.mk 0 0 (1/10) 0)) RefName.center
        (Calibration.mk (Reference.mk none none none) (Tuning.mk none false none))
      = (some (RefPoint.mk (1/10) (1/50)),
         Calibration.mk (Reference.mk (some (RefPoint.mk (1/10) (1/50))) none none)
           (Tuning.mk none false none)) := by
  constructor
  · rfl
  · norm_num [captureReferencePoint, Reference.set]

theorem processFrame_counts {σ : Type} (step : σ → Frame → σ × List Emission)
    (s : AdapterState σ) (data : Frame) :
    (processFrame step s data).stats.framesProcessed = s.stats.framesProcessed + 1 ∧
    ((processFrame step s data).stats.detectedFrames = s.stats.detectedFrames ∨
      (processFrame step s data).stats.detectedFrames = s.stats.detectedFrames + 1) := by
  cases hL : data.landmarks with
  | none => simp [processFrame, hL]
  | some lms =>
      by_cases hlen : lms.length < 21 <;> simp [processFrame, hL, hlen]

theorem applyOp_counts_le {σ : Type} (step : σ → Frame → σ × List Emission)
    (s : AdapterState σ) (op : AdapterOp)
    (h : s.stats.detectedFrames ≤ s.stats.framesProcessed) :
    (applyOp step s op).stats.detectedFrames ≤ (applyOp step s op).stats.framesProcessed := by
  cases op with
  | start => simpa [applyOp]
  | stop => simpa [applyOp]
  | frame data =>
      by_cases hr : s.running
      · obtain ⟨h1, h2⟩ := processFrame_counts step s data
        rcases h2 with h2 | h2 <;> simp [applyOp, hr, h1, h2] <;> omega
      · simpa [applyOp, hr]

theorem runOps_counts_le {σ : Type} (step : σ → Frame → σ × List Emission)
    (s : AdapterState σ) (ops : List AdapterOp)
    (h : s.stats.detectedFrames ≤ s.stats.framesProcessed) :
    (runOps step s ops).stats.detectedFrames ≤ (runOps step s ops).stats.framesProcessed := by
  induction ops generalizing s with
  | nil => simpa [runOps]
  | cons op rest ih =>
      simp only [runOps]
      exact ih _ (applyOp_counts_le step s op h)

/-- C4: a stage that throws is caught at the pipeline level; the next
stage receives exactly the context of the last successful stage, all
following stages still run, the final context is returned, and frame
counting in the adapter is unaffected by anything the pipeline does. -/
theorem C4_pipeline_fault_isolation {α σ : Type} (pre post : List (α → Option α))
    (bad : α → Option α) (hbad : ∀ ctx, bad ctx = none) (c : α)
    (step : σ → Frame → σ × List Emission) (s : AdapterState σ) (data : Frame) :
    pipelineRun (pre ++ bad :: post) c = pipelineRun post (pipelineRun pre c) ∧
    (processFrame step s data).stats.framesProcessed = s.stats.framesProcessed + 1 := by
  constructor
  · induction pre generalizing c with
    | nil => simp [pipelineRun, hbad]
    | cons p rest ih =>
        simp only [List.cons_append, pipelineRun]
        cases hp : p c with
        | none => exact ih c
        | some c2 => exact ih c2
  · exact (processFrame_counts step s data).1

/-- Witness for C4: a concrete three-stage pipeline whose middle stage
always throws behaves as the first stage followed by the third. -/
theorem C4_pipeline_fault_isolation_witness :
    pipelineRun ([fun n : ℕ => some (n + 1)] ++ (fun _ : ℕ => none) :: [fun n : ℕ => some (n * 2)]) 3
      = pipelineRun [fun n : ℕ => some (n * 2)] (pipelineRun [fun n : ℕ => some (n + 1)] 3) ∧
    (processFrame (fun (u : Unit) _ => (u, [])) (initAdapter ())
        (Frame.mk none 0)).stats.framesProcessed = (initAdapter ()).stats.framesProcessed + 1 :=
  C4_pipeline_fault_isolation _ _ _ (fun _ => rfl) 3 _ _ _

/-- C5 counterexample: for a degenerate triangle (raw area 0) and
normalize config min = 0.01, max = 1, outputMax = 1, the triangleArea
derivation yields the negative value -1/99, while the claimed
distance-style rescale-and-clamp formula yields 0 — so the normalized
triangle area is not always in [0, outputMax]. -/
theorem C5_triangleArea_counterexample :
    triangleArea (Landmark.mk 0 0 0) (Landmark.mk 0 0 0) (Landmark.mk 0 0 0)
        (some (NormalizeCfg.mk (1/100) 1 (some 1))) = -(1/99) ∧
    triangleAreaClaimed (Landmark.mk 0 0 0) (Landmark.mk 0 0 0) (Landmark.mk 0 0 0)
        (NormalizeCfg.mk (1/100) 1 (some 1)) = 0 ∧
    triangleArea (Landmark.mk 0 0 0) (Landmark.mk 0 0 0) (Landmark.mk 0 0 0)
        (some (NormalizeCfg.mk (1/100) 1 (some 1))) < 0 := by
  norm_num [triangleArea, triangleAreaClaimed, distanceNormalize, shoelaceArea,
    outputMaxOr, jsAbs, jsMin, jsMax]

/-- C5 (amended): the triangleArea normalize path applies the same linear
rescale as distance and the same ceiling at outputMax, but omits the floor
clamp at 0: the result is min(outputMax, (raw - min)/(max - min) *
outputMax), is bounded above by outputMax, and coincides with the distance
rescale-and-clamp exactly on inputs whose rescaled value is nonnegative. -/
theorem C5_triangleArea_normalize (a b c : Landmark) (n : NormalizeCfg) :
    triangleArea a b c (some n) =
      jsMin (outputMaxOr n.outputMax)
        ((shoelaceArea a b c - n.min) / (n.max - n.min) * outputMaxOr n.outputMax) ∧
    triangleArea a b c (some n) ≤ outputMaxOr n.outputMax ∧
    (0 ≤ (shoelaceArea a b c - n.min) / (n.max - n.min) * outputMaxOr n.outputMax →
      triangleArea a b c (some n) = distanceNormalize (shoelaceArea a b c) n) := by
  refine ⟨rfl, ?_, ?_⟩
  · rw [triangleArea, jsMin_eq_min]
    exact min_le_left _ _
  · intro h
    rw [triangleArea, distanceNormalize, jsMax_eq_max, max_eq_right h]

/-- Witness for C5 (amended) at a concrete right triangle with area 1/2
and normalize min = 0, max = 1, outputMax = 1: the rescaled value is
nonnegative and the triangleArea result equals the distance-style one. -/
theorem C5_triangleArea_normalize_witness :
    (0 ≤ (shoelaceArea (Landmark.mk 0 0 0) (Landmark.mk 1 0 0) (Landmark.mk 0 1 0)
        - (NormalizeCfg.mk 0 1 (some 1)).min)
        / ((NormalizeCfg.mk 0 1 (some 1)).max - (NormalizeCfg.mk 0 1 (some 1)).min)
        * outputMaxOr (NormalizeCfg.mk 0 1 (some 1)).outputMax) ∧
    triangleArea (Landmark.mk 0 0 0) (Landmark.mk 1 0 0) (Landmark.mk 0 1 0)
        (some (NormalizeCfg.mk 0 1 (some 1)))
      = distanceNormalize
          (shoelaceArea (Landmark.mk 0 0 0) (Landmark.mk 1 0 0) (Landmark.mk 0 1 0))
          (NormalizeCfg.mk 0 1 (some 1)) :=
  ⟨by norm_num [shoelaceArea, outputMaxOr, jsAbs],
   (C5_triangleArea_normalize _ _ _ _).2.2
     (by norm_num [shoelaceArea, outputMaxOr, jsAbs])⟩

theorem detectionRate_bounds (st : Stats) (h : st.detectedFrames ≤ st.framesProcessed) :
    0 ≤ detectionRate st ∧ detectionRate st ≤ 1 ∧
    (detectionRate st = 0 ↔ st.detectedFrames = 0) ∧
    (st.framesProcessed = 0 → detectionRate st = 0) := by
  unfold detectionRate
  by_cases hf : 0 < st.framesProcessed
  · have hfq : (0:ℚ) < st.framesProcessed := by exact_mod_cast hf
    rw [if_pos hf]
    refine ⟨div_nonneg (by positivity) hfq.le, ?_, ?_, ?_⟩
    · rw [div_le_one hfq]
      exact_mod_cast h
    · rw [div_eq_zero_iff]
      simp [hfq.ne', Nat.cast_eq_zero]
    · intro h0
      omega
  · rw [if_neg hf]
    have hd : st.detectedFrames = 0 := by omega
    simp [hd]

/-- C10 counterexample: after one frame with an empty landmark list,
detectionRate is 0 while framesProcessed is 1, so detectionRate does not
equal 0 "exactly when framesProcessed is 0" as the claim states. -/
theorem C10_detectionRate_counterexample :
    detectionRate (runOps (fun (u : Unit) _ => (u, [])) (initAdapter ())
        [AdapterOp.start, AdapterOp.frame (Frame.mk (some []) 1)]).stats = 0 ∧
    ¬ (runOps (fun (u : Unit) _ => (u, [])) (initAdapter ())
        [AdapterOp.start, AdapterOp.frame (Frame.mk (some []) 1)]).stats.framesProcessed = 0 := by
  norm_num [runOps, applyOp, processFrame, initAdapter, detectionRate]

/-- C10 (amended): after any sequence of adapter operations from the
initial state, detectedFrames ≤ framesProcessed (each frame that
increments detectedFrames also increments framesProcessed by exactly one);
detectionRate always lies in [0, 1]; it equals 0 when framesProcessed is
0, and in general it equals 0 exactly when detectedFrames is 0. -/
theorem C10_detection_stats {σ : Type} (step : σ → Frame → σ × List Emission)
    (p0 : σ) (ops : List AdapterOp) :
    (runOps step (initAdapter p0) ops).stats.detectedFrames
      ≤ (runOps step (initAdapter p0) ops).stats.framesProcessed ∧
    0 ≤ detectionRate (runOps step (initAdapter p0) ops).stats ∧
    detectionRate (runOps step (initAdapter p0) ops).stats ≤ 1 ∧
    (detectionRate (runOps step (initAdapter p0) ops).stats = 0 ↔
      (runOps step (initAdapter p0) ops).stats.detectedFrames = 0) ∧
    ((runOps step (initAdapter p0) ops).stats.framesProcessed = 0 →
      detectionRate (runOps step (initAdapter p0) ops).stats = 0) ∧
    (∀ (s : AdapterState σ) (data : Frame),
      (processFrame step s data).stats.framesProcessed = s.stats.framesProcessed + 1 ∧
      s.stats.detectedFrames ≤ (processFrame step s data).stats.detectedFrames ∧
      (processFrame step s data).stats.detectedFrames ≤ s.stats.detectedFrames + 1) := by
  have hinv := runOps_counts_le step (initAdapter p0) ops (by simp [initAdapter])
  obtain ⟨h0, h1, h2, h3⟩ := detectionRate_bounds _ hinv
  refine ⟨hinv, h0, h1, h2, h3, fun s data => ?_⟩
  obtain ⟨hf, hd⟩ := processFrame_counts step s data
  rcases hd with hd | hd <;> simp [hf, hd]

/-- Witness for C10 at a concrete instance: the empty operation sequence
leaves the rate at 0, within [0, 1]. -/
theorem C10_detection_stats_witness :
    0 ≤ detectionRate (runOps (fun (u : Unit) _ => (u, [])) (initAdapter ()) []).stats ∧
    detectionRate (runOps (fun (u : Unit) _ => (u, [])) (initAdapter ()) []).stats ≤ 1 ∧
    detectionRate (runOps (fun (u : Unit) _ => (u, [])) (initAdapter ()) []).stats = 0 :=
  ⟨(C10_detection_stats (fun (u : Unit) _ => (u, [])) () []).2.1,
   (C10_detection_stats (fun (u : Unit) _ => (u, [])) () []).2.2.1,
   (C10_detection_stats (fun (u : Unit) _ => (u, [])) () []).2.2.2.2.1 rfl⟩

theorem smooth_fixed (f d t : ℚ) : smooth f d t t = t := by
  unfold smooth jsAbs
  simp only [sub_self]
  split_ifs <;> ring

theorem smooth_between_le (f d c t : ℚ) (hf0 : 0 ≤ f) (hf1 : f ≤ 1) (hc : c ≤ t) :
    c ≤ smooth f d c t ∧ smooth f d c t ≤ t := by
  unfold smooth
  dsimp only
  split_ifs with h
  · exact ⟨le_refl c, hc⟩
  · constructor <;>
      nlinarith [mul_nonneg (sub_nonneg.mpr hc) (sub_nonneg.mpr hf1),
        mul_nonneg (sub_nonneg.mpr hc) hf0]

theorem smooth_between_ge (f d c t : ℚ) (hf0 : 0 ≤ f) (hf1 : f ≤ 1) (hc : t ≤ c) :
    smooth f d c t ≤ c ∧ t ≤ smooth f d c t := by
  unfold smooth
  dsimp only
  split_ifs with h
  · exact ⟨le_refl c, hc⟩
  · constructor <;>
      nlinarith [mul_nonneg (sub_nonneg.mpr hc) (sub_nonneg.mpr hf1),
        mul_nonneg (sub_nonneg.mpr hc) hf0]

/-- C3: per-channel smoothing with factor in [0,1) and deadzone ≥ 0: a
target equal to the current state never changes the state over any number
of frames; and for a constant target farther from the initial state than
the deadzone, the state sequence moves monotonically toward the target and
never passes it. -/
theorem C3_smooth_monotone (factor deadzone s0 target : ℚ)
    (hf0 : 0 ≤ factor) (hf1 : factor < 1) (_hd : 0 ≤ deadzone) :
    (target = s0 → ∀ n, smoothIter factor deadzone target s0 n = s0) ∧
    (deadzone < jsAbs (target - s0) →
      ((s0 ≤ target → ∀ n,
        smoothIter factor deadzone target s0 n ≤ smoothIter factor deadzone target s0 (n+1) ∧
        smoothIter factor deadzone target s0 (n+1) ≤ target) ∧
       (target ≤ s0 → ∀ n,
        smoothIter factor deadzone target s0 (n+1) ≤ smoothIter factor deadzone target s0 n ∧
        target ≤ smoothIter factor deadzone target s0 (n+1)))) := by
  constructor
  · intro ht n
    subst ht
    induction n with
    | zero => rfl
    | succ n ih => rw [smoothIter, ih, smooth_fixed]
  · intro _hfar
    constructor
    · intro hle n
      have hub : ∀ m, smoothIter factor deadzone target s0 m ≤ target := by
        intro m
        induction m with
        | zero => exact hle
        | succ m ih => exact (smooth_between_le _ _ _ _ hf0 hf1.le ih).2
      exact ⟨(smooth_between_le _ _ _ _ hf0 hf1.le (hub n)).1,
        (smooth_between_le _ _ _ _ hf0 hf1.le (hub n)).2⟩
    · intro hge n
      have hlb : ∀ m, target ≤ smoothIter factor deadzone target s0 m := by
        intro m
        induction m with
        | zero => exact hge
        | succ m ih => exact (smooth_between_ge _ _ _ _ hf0 hf1.le ih).2
      exact ⟨(smooth_between_ge _ _ _ _ hf0 hf1.le (hlb n)).1,
        (smooth_between_ge _ _ _ _ hf0 hf1.le (hlb n)).2⟩

/-- Witness for C3 at factor 1/2, deadzone 1/100, initial state 0 and
constant target 1: the first smoothing step moves up and stays at most 1. -/
theorem C3_smooth_monotone_witness :
    smoothIter (1/2) (1/100) 1 0 0 ≤ smoothIter (1/2) (1/100) 1 0 1 ∧
    smoothIter (1/2) (1/100) 1 0 1 ≤ 1 :=
  ((C3_smooth_monotone (1/2) (1/100) 0 1 (by norm_num) (by norm_num) (by norm_num)).2
    (by norm_num [jsAbs])).1 (by norm_num) 0

theorem clampRev_shape (b : Bool) (v : JNum) :
    (∃ q : ℚ, (if b = true then ((v.minFin 1).maxFin (-1)).neg
        else (v.minFin 1).maxFin (-1)) = .fin q ∧ -1 ≤ q ∧ q ≤ 1) ∨
    (if b = true then ((v.minFin 1).maxFin (-1)).neg
        else (v.minFin 1).maxFin (-1)) = .nan := by
  have hshape : (∃ q : ℚ, (v.minFin 1).maxFin (-1) = .fin q ∧ -1 ≤ q ∧ q ≤ 1) ∨
      (v.minFin 1).maxFin (-1) = .nan := by
    cases v with
    | fin q =>
        left
        refine ⟨jsMax (-1) (jsMin 1 q), rfl, ?_, ?_⟩
        · rw [jsMax_eq_max]
          exact le_max_left _ _
        · rw [jsMax_eq_max, jsMin_eq_min]
          exact max_le (by norm_num) (min_le_left _ _)
    | posInf =>
        left
        exact ⟨jsMax (-1) 1, rfl, by norm_num [jsMax], by norm_num [jsMax]⟩
    | negInf =>
        left
        exact ⟨-1, rfl, by norm_num, by norm_num⟩
    | nan =>
        right
        rfl
  rcases hshape with ⟨q, hq, hl, hr⟩ | hnan
  · left
    cases b
    · exact ⟨q, by simpa using hq, hl, hr⟩
    · refine ⟨-q, ?_, by linarith, by linarith⟩
      simp only [if_pos rfl, hq]
      rfl
  · cases b
    · right
      simpa using hnan
    · right
      simp only [if_pos rfl, hnan]
      rfl

theorem clampRev_fin (b : Bool) (d : ℚ) :
    ∃ q : ℚ, (if b = true then (((JNum.fin d).minFin 1).maxFin (-1)).neg
        else ((JNum.fin d).minFin 1).maxFin (-1)) = .fin q ∧ -1 ≤ q ∧ q ≤ 1 := by
  have hl : -1 ≤ jsMax (-1) (jsMin 1 d) := by
    rw [jsMax_eq_max]
    exact le_max_left _ _
  have hr : jsMax (-1) (jsMin 1 d) ≤ 1 := by
    rw [jsMax_eq_max, jsMin_eq_min]
    exact max_le (by norm_num) (min_le_left _ _)
  cases b
  · exact ⟨jsMax (-1) (jsMin 1 d), rfl, hl, hr⟩
  · exact ⟨-(jsMax (-1) (jsMin 1 d)), rfl, by linarith, by linarith⟩

/-- C2 counterexample, in two parts. First, JS `||` falsiness: with a
pronate point whose stored rawRotation is exactly 0 (supinate -0.52,
center 0), the code falls back to the 0.52 default even though the point
is set, so for raw = 0.26 it stores 1/2 while the claim's formula
(defaults only when unset) gives 1. Second, division by zero: capturing
supinate at 0.52 with pronate unset gives thetaRange = 0.52 - 0.52 = 0,
and with raw equal to the effective center the JS division is 0/0 = NaN,
which passes through the clamp and is stored — not 0 and not in [-1, 1]
as the claim concludes. -/
theorem C2_calibrate_counterexample :
    calibrateRotation (13/50)
        (Reference.mk (some (RefPoint.mk 0 (1/100))) (some (RefPoint.mk (-(13/25)) (1/50)))
          (some (RefPoint.mk 0 (1/50))))
        (Tuning.mk none false none) = .fin (1/2) ∧
    calibrateRotationClaimed (13/50)
        (Reference.mk (some (RefPoint.mk 0 (1/100))) (some (RefPoint.mk (-(13/25)) (1/50)))
          (some (RefPoint.mk 0 (1/50))))
        (Tuning.mk none false none) = 1 ∧
    ¬ (calibrateRotation (13/50)
        (Reference.mk (some (RefPoint.mk 0 (1/100))) (some (RefPoint.mk (-(13/25)) (1/50)))
          (some (RefPoint.mk 0 (1/50))))
        (Tuning.mk none false none)
      = .fin (calibrateRotationClaimed (13/50)
        (Reference.mk (some (RefPoint.mk 0 (1/100))) (some (RefPoint.mk (-(13/25)) (1/50)))
          (some (RefPoint.mk 0 (1/50))))
        (Tuning.mk none false none))) ∧
    calibrateRotation 0
        (Reference.mk (some (RefPoint.mk 0 (1/100))) (some (RefPoint.mk (13/25) (1/50))) none)
        (Tuning.mk none false none) = .nan := by
  norm_num [calibrateRotation, calibrateRotationClaimed, rawRotationOr, jsDiv,
    JNum.lt0, JNum.mulFin, JNum.minFin, JNum.maxFin, JNum.neg, jsMin, jsMax]

/-- C2 (amended): when the derived map contains a numeric hand-rotation
and the calibration has a center reference, CalibrateProcessor.process
stores into calibrated the value of the chain: thetaRange = pronate minus
supinate rawRotation, each defaulting to ±0.52 when unset or when the
stored rawRotation is exactly 0 (JS `||` falsiness); normalized =
(raw − center)/(thetaRange/2) under JS division (an infinity or NaN when
thetaRange = 0); multiplied by sensitivity.left when `normalized < 0`
(false for NaN and +Infinity), .right otherwise; passed through
Math.min(1, ·) then Math.max(−1, ·), which clamp infinities to ±1 but let
NaN through; negated iff tuning.reverse. Hence the stored value is always
either a finite value in [−1, 1] or NaN; when thetaRange ≠ 0 it is always
finite in [−1, 1], and it is 0 when additionally raw equals
center.rawRotation. -/
theorem C2_calibrate_rotation (context : Ctx) (raw : ℚ) (c : RefPoint)
    (h1 : lookupA context.derived "hand-rotation" = some (.num raw))
    (h2 : context.calibration.reference.center = some c) :
    lookupA (calibrateProcess context).calibrated "hand-rotation-calibrated"
      = some (calibrateRotation raw context.calibration.reference
          context.calibration.tuning).toValue ∧
    ((∃ q : ℚ, calibrateRotation raw context.calibration.reference
        context.calibration.tuning = .fin q ∧ -1 ≤ q ∧ q ≤ 1) ∨
      calibrateRotation raw context.calibration.reference
        context.calibration.tuning = .nan) ∧
    (rawRotationOr context.calibration.reference.pronate (13/25)
        - rawRotationOr context.calibration.reference.supinate (-(13/25)) ≠ 0 →
      (∃ q : ℚ, calibrateRotation raw context.calibration.reference
          context.calibration.tuning = .fin q ∧ -1 ≤ q ∧ q ≤ 1) ∧
      (raw = c.rawRotation →
        calibrateRotation raw context.calibration.reference
          context.calibration.tuning = .fin 0)) := by
  have hpre : ∀ d l r : ℚ, (if (JNum.fin d).lt0 = true then (JNum.fin d).mulFin l
      else (JNum.fin d).mulFin r)
      = JNum.fin (if (JNum.fin d).lt0 = true then d * l else d * r) := by
    intro d l r
    split_ifs <;> rfl
  refine ⟨?_, ?_, ?_⟩
  · simp only [calibrateProcess, h1, h2]
    rcases hc : lookupA context.derived "hand-center" with _ | v
    · simp only [hc]
      exact lookupA_insertA_self _ _ _
    · simp only [hc]
      by_cases ht : v.truthy
      · simp only [ht, if_true]
        rw [lookupA_insertA_ne _ _ _ _ (by decide)]
        exact lookupA_insertA_self _ _ _
      · simp only [ht, if_false, Bool.false_eq_true]
        exact lookupA_insertA_self _ _ _
  · unfold calibrateRotation
    dsimp only
    exact clampRev_shape _ _
  · intro hθ
    have hθ2 : (rawRotationOr context.calibration.reference.pronate (13/25)
        - rawRotationOr context.calibration.reference.supinate (-(13/25))) / 2 ≠ 0 := by
      simp [div_eq_zero_iff, hθ]
    constructor
    · unfold calibrateRotation
      dsimp only
      rw [jsDiv, if_neg hθ2, hpre]
      exact clampRev_fin _ _
    · intro hraw
      have hnum : raw - rawRotationOr context.calibration.reference.center 0 = 0 := by
        rw [h2]
        simp only [rawRotationOr]
        split_ifs with h0
        · simp [hraw, h0]
        · simp [hraw]
      unfold calibrateRotation
      dsimp only
      rw [hnum, jsDiv, if_neg hθ2, zero_div, hpre]
      norm_num [JNum.lt0, JNum.mulFin, JNum.minFin, JNum.maxFin, JNum.neg, jsMin, jsMax]

/-- Witness for C2 (amended) at a concrete context whose derived
hand-rotation is 0, with the schema-default-shaped reference (center 0,
supinate and pronate unset, so thetaRange = 1.04 ≠ 0). -/
theorem C2_calibrate_rotation_witness :
    lookupA (calibrateProcess (Ctx.mk (Frame.mk none 0)
        [("hand-rotation", Value.num 0)] [] [] [] []
        (Calibration.mk (Reference.mk (some (RefPoint.mk 0 (1/100))) none none)
          (Tuning.mk none false none)))).calibrated "hand-rotation-calibrated"
      = some (calibrateRotation 0
          (Reference.mk (some (RefPoint.mk 0 (1/100))) none none)
          (Tuning.mk none false none)).toValue ∧
    calibrateRotation 0 (Reference.mk (some (RefPoint.mk 0 (1/100))) none none)
        (Tuning.mk none false none) = .fin 0 :=
  ⟨(C2_calibrate_rotation (Ctx.mk (Frame.mk none 0)
        [("hand-rotation", Value.num 0)] [] [] [] []
        (Calibration.mk (Reference.mk (some (RefPoint.mk 0 (1/100))) none none)
          (Tuning.mk none false none))) 0 (RefPoint.mk 0 (1/100)) rfl rfl).1,
   ((C2_calibrate_rotation (Ctx.mk (Frame.mk none 0)
        [("hand-rotation", Value.num 0)] [] [] [] []
        (Calibration.mk (Reference.mk (some (RefPoint.mk 0 (1/100))) none none)
          (Tuning.mk none false none))) 0 (RefPoint.mk 0 (1/100)) rfl rfl).2.2
      (by norm_num [rawRotationOr])).2 rfl⟩

theorem emitOutputs_lookup_not_mem (outs : List (String × OutputCfg)) (ctx : Ctx)
    (name : String) (h : name ∉ outs.map Prod.fst) :
    lookupA (emitOutputs outs ctx).1.outputs name = lookupA ctx.outputs name := by
  induction outs generalizing ctx with
  | nil => rfl
  | cons oc rest ih =>
      obtain ⟨n0, c0⟩ := oc
      have hne : name ≠ n0 := fun e => h (by simp [e])
      have hnr : name ∉ rest.map Prod.fst := fun hm => h (by simp [hm])
      simp only [emitOutputs]
      rw [ih _ hnr]
      exact lookupA_insertA_ne _ _ _ _ hne

theorem emitOutputs_mem (outs : List (String × OutputCfg)) (ctx : Ctx)
    (name : String) (cfg : OutputCfg)
    (hnd : (outs.map Prod.fst).Nodup) (hmem : (name, cfg) ∈ outs) :
    lookupA (emitOutputs outs ctx).1.outputs name
      = some ((resolveOutput ctx cfg).map (applyOutput cfg)) ∧
    Emission.mk name ((resolveOutput ctx cfg).map (applyOutput cfg)) (topicOr cfg.topic)
      ∈ (emitOutputs outs ctx).2 := by
  induction outs generalizing ctx with
  | nil => cases hmem
  | cons oc rest ih =>
      obtain ⟨n0, c0⟩ := oc
      have hnd2 : (rest.map Prod.fst).Nodup := (List.nodup_cons.mp (by simpa using hnd)).2
      have hnin : n0 ∉ rest.map Prod.fst := (List.nodup_cons.mp (by simpa using hnd)).1
      rcases List.mem_cons.mp hmem with heq | htail
      · injection heq with e1 e2
        subst e1
        subst e2
        constructor
        · simp only [emitOutputs]
          rw [emitOutputs_lookup_not_mem rest _ name hnin]
          exact lookupA_insertA_self _ _ _
        · simp only [emitOutputs]
          exact List.mem_cons_self _ _
      · have hne : name ≠ n0 := by
          intro e
          subst e
          exact hnin (List.mem_map.mpr ⟨(name, cfg), htail, rfl⟩)
        obtain ⟨ihl, ihr⟩ :=
          ih { ctx with outputs := (insertA ctx.outputs n0
            ((resolveOutput ctx c0).map (applyOutput c0))) } hnd2 htail
        constructor
        · simp only [emitOutputs]
          exact ihl
        · simp only [emitOutputs]
          exact List.mem_cons_of_mem _ ihr

/-- C1: output resolution checks smoothed, then calibrated, then derived
(first match wins), yields 0 when unresolved; after optional component
selection the value is remapped from range.input to range.output, replaced
by 1 minus itself when invert is set, and clamped to [0, 1]; for range
input [-1, 1] and output [0, 1], resolved -1, 0, 1 give 0, 1/2, 1; every
emitted value is in [0, 1] for every resolved value; the result is stored
in context.outputs under the output name and the emission reaches every
connected sink. -/
theorem C1_output_resolution_emission :
    (∀ (ctx : Ctx) (cfg : OutputCfg) (v : Value),
      lookupA ctx.smoothed cfg.source = some v →
      resolveOutput ctx cfg = selectComponent v cfg.component) ∧
    (∀ (ctx : Ctx) (cfg : OutputCfg) (v : Value),
      lookupA ctx.smoothed cfg.source = none →
      lookupA ctx.calibrated cfg.source = some v →
      resolveOutput ctx cfg = selectComponent v cfg.component) ∧
    (∀ (ctx : Ctx) (cfg : OutputCfg) (v : Value),
      lookupA ctx.smoothed cfg.source = none →
      lookupA ctx.calibrated cfg.source = none →
      lookupA ctx.derived cfg.source = some v →
      resolveOutput ctx cfg = selectComponent v cfg.component) ∧
    (∀ (ctx : Ctx) (cfg : OutputCfg),
      lookupA ctx.smoothed cfg.source = none →
      lookupA ctx.calibrated cfg.source = none →
      lookupA ctx.derived cfg.source = none →
      resolveOutput ctx cfg = some 0) ∧
    (∀ cfg : OutputCfg, cfg.range = some (RangeCfg.mk (-1) 1 0 1) → cfg.invert = false →
      applyOutput cfg (-1) = 0 ∧ applyOutput cfg 0 = 1/2 ∧ applyOutput cfg 1 = 1) ∧
    (∀ (cfg : OutputCfg) (q : ℚ), 0 ≤ applyOutput cfg q ∧ applyOutput cfg q ≤ 1) ∧
    (∀ (outs : List (String × OutputCfg)) (ctx : Ctx) (name : String) (cfg : OutputCfg),
      (outs.map Prod.fst).Nodup → (name, cfg) ∈ outs →
      lookupA (emitOutputs outs ctx).1.outputs name
        = some ((resolveOutput ctx cfg).map (applyOutput cfg)) ∧
      Emission.mk name ((resolveOutput ctx cfg).map (applyOutput cfg)) (topicOr cfg.topic)
        ∈ (emitOutputs outs ctx).2) ∧
    (∀ (sinks : List String) (emissions : List Emission) (s : String) (e : Emission),
      s ∈ sinks → e ∈ emissions → (s, e) ∈ fanOut sinks emissions) := by
  refine ⟨?_, ?_, ?_, ?_, ?_, ?_, ?_, ?_⟩
  · intro ctx cfg v h
    simp [resolveOutput, h]
  · intro ctx cfg v h1 h2
    simp [resolveOutput, h1, h2]
  · intro ctx cfg v h1 h2 h3
    simp [resolveOutput, h1, h2, h3]
  · intro ctx cfg h1 h2 h3
    simp [resolveOutput, h1, h2, h3]
  · intro cfg hr hi
    refine ⟨?_, ?_, ?_⟩ <;> norm_num [applyOutput, hr, hi, jsMax, jsMin]
  · intro cfg q
    unfold applyOutput
    dsimp only
    constructor
    · rw [jsMax_eq_max]
      exact le_max_left _ _
    · rw [jsMax_eq_max, jsMin_eq_min]
      exact max_le (by norm_num) (min_le_left _ _)
  · intro outs ctx name cfg hnd hmem
    exact emitOutputs_mem outs ctx name cfg hnd hmem
  · intro sinks emissions s e hs
    induction emissions with
    | nil => intro he; cases he
    | cons e0 rest ih =>
        intro he
        simp only [fanOut]
        rcases List.mem_cons.mp he with heq | hr
        · subst heq
          exact List.mem_append_left _ (List.mem_map.mpr ⟨s, hs, rfl⟩)
        · exact List.mem_append_right _ (ih hr)

/-- Witness for C1 at a concrete context and config: a smoothed source
"theta" with value 1/2, the standard range [-1,1] to [0,1] examples, the
clamp at a resolved value of 2, storage and emission for a one-entry
output schema, and fan-out to a single sink. -/
theorem C1_output_resolution_emission_witness :
    resolveOutput
        (Ctx.mk (Frame.mk none 0) [] [] [("theta", Value.num (1/2))] [] []
          (Calibration.mk (Reference.mk none none none) (Tuning.mk none false none)))
        (OutputCfg.mk "theta" none (some (RangeCfg.mk (-1) 1 0 1)) false none)
      = selectComponent (Value.num (1/2)) none ∧
    applyOutput (OutputCfg.mk "theta" none (some (RangeCfg.mk (-1) 1 0 1)) false none) (-1) = 0 ∧
    applyOutput (OutputCfg.mk "theta" none (some (RangeCfg.mk (-1) 1 0 1)) false none) 0 = 1/2 ∧
    applyOutput (OutputCfg.mk "theta" none (some (RangeCfg.mk (-1) 1 0 1)) false none) 1 = 1 ∧
    (0 ≤ applyOutput (OutputCfg.mk "theta" none (some (RangeCfg.mk (-1) 1 0 1)) false none) 2 ∧
      applyOutput (OutputCfg.mk "theta" none (some (RangeCfg.mk (-1) 1 0 1)) false none) 2 ≤ 1) ∧
    ("sinkA", Emission.mk "hand-x" (some (1/2)) "hand")
      ∈ fanOut ["sinkA"] [Emission.mk "hand-x" (some (1/2)) "hand"] :=
  ⟨C1_output_resolution_emission.1
      (Ctx.mk (Frame.mk none 0) [] [] [("theta", Value.num (1/2))] [] []
        (Calibration.mk (Reference.mk none none none) (Tuning.mk none false none)))
      (OutputCfg.mk "theta" none (some (RangeCfg.mk (-1) 1 0 1)) false none)
      (Value.num (1/2)) rfl,
   (C1_output_resolution_emission.2.2.2.2.1
      (OutputCfg.mk "theta" none (some (RangeCfg.mk (-1) 1 0 1)) false none) rfl rfl).1,
   (C1_output_resolution_emission.2.2.2.2.1
      (OutputCfg.mk "theta" none (some (RangeCfg.mk (-1) 1 0 1)) false none) rfl rfl).2.1,
   (C1_output_resolution_emission.2.2.2.2.1
      (OutputCfg.mk "theta" none (some (RangeCfg.mk (-1) 1 0 1)) false none) rfl rfl).2.2,
   C1_output_resolution_emission.2.2.2.2.2.1
      (OutputCfg.mk "theta" none (some (RangeCfg.mk (-1) 1 0 1)) false none) 2,
   C1_output_resolution_emission.2.2.2.2.2.2.2
      ["sinkA"] [Emission.mk "hand-x" (some (1/2)) "hand"] "sinkA"
      (Emission.mk "hand-x" (some (1/2)) "hand") (by simp) (by simp)⟩

end ControlDeck
